import Mathlib

/-!
# Verification of the sqlite6nf specification against `sqlite6nf.py`

This file shallowly embeds the parts of `sqlite6nf.py` that the claims C1-C10
are about:

* a small backtracking regular-expression engine faithful to the semantics of
  Python's `re` module for the constructs actually used by the source
  (literals, case-insensitive literals, dot-all `.`, character classes, lazy
  and greedy repetition, greedy option, alternation with left preference,
  lookahead, single-character lookbehind, `$`, named groups, `finditer`);
* the pattern constants `_PATTERN_*` of the source, transcribed
  constructor-by-constructor from their regex text, including the textual
  group-renaming post-passes the source performs with `re.sub`;
* the `Cursor.simulate` / `Cursor.substitute` / `Cursor.execute*` behaviour;
* the `Connection.normalize` statement trace and a small transactional
  database machine giving the `INSERT OR ROLLBACK` statements their
  SQLite-documented conflict semantics;
* the generated-trigger runtime behaviour on a tracked table.

All definitions are executable; concrete claims are settled by kernel
evaluation on explicit inputs.
-/

namespace Sqlite6nf

/-! ## A backtracking regex engine with Python `re` semantics -/

/-- Regex abstract syntax; only the constructs used by the `_PATTERN_*`
constants of `sqlite6nf.py`. Alternation prefers the left branch, `starL` is
lazy (`*?`), `starG` is greedy (`*`), `opt` is greedy (`?`). -/
inductive Re where
  | eps : Re
  | ch (c : Char) : Re
  | chI (c : Char) : Re
  | dot : Re
  | ws : Re
  | cls (neg : Bool) (ranges : List (Char × Char)) : Re
  | seq (a b : Re) : Re
  | alt (a b : Re) : Re
  | starL (a : Re) : Re
  | starG (a : Re) : Re
  | opt (a : Re) : Re
  | ahead (neg : Bool) (a : Re) : Re
  | behind (neg : Bool) (ranges : List (Char × Char)) : Re
  | bolB : Re
  | eos : Re
  | grp (gname : String) (a : Re) : Re
deriving Repr

/-- Captured group spans: name, start, stop (most recent first). -/
abbrev Caps := List (String × Nat × Nat)

def getC (s : List Char) (i : Nat) : Option Char := s.get? i

def inRanges (c : Char) (rs : List (Char × Char)) : Bool :=
  rs.any (fun r => decide (r.1 ≤ c) && decide (c ≤ r.2))

/-- Python's `\s` on ASCII input. -/
def isWsChar (c : Char) : Bool :=
  c = ' ' || c = '\t' || c = '\n' || c = '\r' || c = '\x0b' || c = '\x0c'

/-- Case-insensitive hit: `chI c` (with `c` an upper-case letter) matches `c` or its lower-case
form, like a letter inside `(?i:...)`. -/
def ciHit (c c2 : Char) : Bool := c2 = c || c2.toNat = c.toNat + 32

/-- The backtracking matcher, in continuation-passing style.  `mat s fuel re i
caps k` tries to match `re` at position `i` of `s` with capture state `caps`
and continuation `k`; the first success in Python's preference order wins.
`fuel` bounds the recursion depth only. -/
def mat (s : List Char) : Nat → Re → Nat → Caps →
    (Nat → Caps → Option (Nat × Caps)) → Option (Nat × Caps)
  | 0, _, _, _, _ => none
  | fuel + 1, re, i, caps, k =>
    match re with
    | .eps => k i caps
    | .ch c =>
      match getC s i with
      | some c2 => if c2 = c then k (i + 1) caps else none
      | none => none
    | .chI c =>
      match getC s i with
      | some c2 => if ciHit c c2 then k (i + 1) caps else none
      | none => none
    | .dot =>
      match getC s i with
      | some _ => k (i + 1) caps
      | none => none
    | .ws =>
      match getC s i with
      | some c2 => if isWsChar c2 then k (i + 1) caps else none
      | none => none
    | .cls neg rs =>
      match getC s i with
      | some c2 => if inRanges c2 rs ≠ neg then k (i + 1) caps else none
      | none => none
    | .seq a b => mat s fuel a i caps (fun j caps2 => mat s fuel b j caps2 k)
    | .alt a b =>
      match mat s fuel a i caps k with
      | some r => some r
      | none => mat s fuel b i caps k
    | .starL a =>
      match k i caps with
      | some r => some r
      | none =>
        mat s fuel a i caps (fun j caps2 =>
          if j = i then none else mat s fuel (.starL a) j caps2 k)
    | .starG a =>
      match mat s fuel a i caps (fun j caps2 =>
          if j = i then none else mat s fuel (.starG a) j caps2 k) with
      | some r => some r
      | none => k i caps
    | .opt a =>
      match mat s fuel a i caps k with
      | some r => some r
      | none => k i caps
    | .ahead neg a =>
      match mat s fuel a i caps (fun j caps2 => some (j, caps2)) with
      | some _ => if neg then none else k i caps
      | none => if neg then k i caps else none
    | .behind neg rs =>
      let hit :=
        match i with
        | 0 => false
        | j + 1 =>
          match getC s j with
          | some c2 => inRanges c2 rs
          | none => false
      if hit ≠ neg then k i caps else none
    | .bolB => if i = 0 then k i caps else none
    | .eos =>
      if i = s.length || (i + 1 = s.length && getC s i = some '\n') then
        k i caps
      else none
    | .grp gname a =>
      mat s fuel a i caps (fun j caps2 => k j ((gname, i, j) :: caps2))

/-- Recursion-depth budget; ample for all inputs considered here. -/
def FUEL : Nat := 10000

/-- One regex match: span and captures. -/
structure MRes where
  start : Nat
  stop : Nat
  caps : Caps
deriving Repr, DecidableEq

/-- Try to match `re` at exactly position `i` (like an anchored attempt of
Python's scanning loop). -/
def matchAt (s : List Char) (re : Re) (i : Nat) : Option MRes :=
  (mat s FUEL re i [] (fun j caps => some (j, caps))).map
    (fun r => ⟨i, r.1, r.2⟩)

/-- Search like `re.search`, starting at position `pos`: first position whose anchored
attempt succeeds. -/
def searchFrom (s : List Char) (re : Re) : Nat → Nat → Option MRes
  | 0, _ => none
  | f + 1, pos =>
    if pos > s.length then none
    else
      match matchAt s re pos with
      | some m => some m
      | none => searchFrom s re f (pos + 1)

/-- Model of `re.search`. -/
def searchPat (s : List Char) (re : Re) : Option MRes :=
  searchFrom s re (s.length + 1) 0

/-- Model of `re.finditer`: successive non-overlapping matches; after an empty match
the scan position advances by one. -/
def findIterAux (s : List Char) (re : Re) : Nat → Nat → List MRes
  | 0, _ => []
  | f + 1, pos =>
    match searchFrom s re (s.length + 1) pos with
    | none => []
    | some m =>
      m :: findIterAux s re f (if m.stop > m.start then m.stop else m.stop + 1)

def findIter (s : List Char) (re : Re) : List MRes :=
  findIterAux s re (s.length + 2) 0

/-- Span of a named group in a match (most recent capture wins), like
`match.span(name)` when the group participated. -/
def capSpan (m : MRes) (gname : String) : Option (Nat × Nat) :=
  (m.caps.find? (fun x => x.1 = gname)).map (fun x => x.2)

/-- Text of a named group, like `match.group(name)`. -/
def capList (s : List Char) (m : MRes) (gname : String) : Option (List Char) :=
  (capSpan m gname).map (fun p => (s.drop p.1).take (p.2 - p.1))

/-- Python truthiness of `match.group(name)`: the group participated and its
text is non-empty. -/
def groupTruthy (m : MRes) (gname : String) : Bool :=
  match capSpan m gname with
  | some (a, b) => b > a
  | none => false

end Sqlite6nf

namespace Sqlite6nf

/-! ## The `_PATTERN_*` constants of `sqlite6nf.py`

Transcribed regex-construct by regex-construct from the source text
(lines 335-491).  Quote characters are built with `Char.ofNat`:
39 = single quote, 34 = double quote, 96 = grave accent. -/

def sqC : Char := Char.ofNat 39
def dqC : Char := Char.ofNat 34
def gaC : Char := Char.ofNat 96

/-- A sequence of literal characters. -/
def strLit (t : String) : Re :=
  t.toList.foldr (fun c acc => Re.seq (.ch c) acc) .eps

/-- A sequence of case-insensitive letters, `(?i:KEYWORD)`. -/
def kwCI (t : String) : Re :=
  t.toList.foldr (fun c acc => Re.seq (.chI c) acc) .eps

/-- Lazy plus: `X+?` is `X` followed by a lazy star of `X`. -/
def plusL (a : Re) : Re := .seq a (.starL a)

/-- Exact double repetition `X{2}`. -/
def rep2 (a : Re) : Re := .seq a a

/-- Class `[0-9A-Z_a-z]`. -/
def wordRs : List (Char × Char) := [('0', '9'), ('A', 'Z'), ('_', '_'), ('a', 'z')]

/-- Class `[A-Z_a-z]`. -/
def letterRs : List (Char × Char) := [('A', 'Z'), ('_', '_'), ('a', 'z')]

/-- Pattern `_PATTERN_COMMENT_SINGLE_LINE`: `--` then lazy anything then newline or end. -/
def patCommentSingleLine : Re :=
  .seq (strLit "--") (.seq (.starL .dot) (.alt (.ch '\n') .eos))

/-- Pattern `_PATTERN_COMMENT_MULTI_LINE`: `/*` then lazy anything then `*/` or end. -/
def patCommentMultiLine : Re :=
  .seq (strLit "/*") (.seq (.starL .dot) (.alt (strLit "*/") .eos))

/-- Pattern `_PATTERN_COMMENT`. -/
def patComment : Re := .alt patCommentSingleLine patCommentMultiLine

/-- Pattern `_PATTERN_SPACE`: `\s` or a comment. -/
def patSpace : Re := .alt .ws patComment

/-- Common shape of the single-quote / double-quote / grave-accent identifier
patterns: open delimiter, group `(?s:.*?)[^q](?:q{2})*`, then `q(?!q)` or end. -/
def quotedIdent (q : Char) (gname : String) : Re :=
  .seq (.ch q)
    (.seq
      (.grp gname
        (.seq (.starL .dot) (.seq (.cls true [(q, q)]) (.starG (rep2 (.ch q))))))
      (.alt (.seq (.ch q) (.ahead true (.ch q))) .eos))

/-- Pattern `_PATTERN_IDENTIFIER_SINGLE_QUOTE`. -/
def patIdentifierSingleQuote : Re := quotedIdent sqC "identifier_single_quote"

/-- Pattern `_PATTERN_IDENTIFIER_DOUBLE_QUOTE`. -/
def patIdentifierDoubleQuote : Re := quotedIdent dqC "identifier_double_quote"

/-- Pattern `_PATTERN_IDENTIFIER_SQUARE_BRACKET`: `[`, lazy anything, `]` or end. -/
def patIdentifierSquareBracket : Re :=
  .seq (.ch '[')
    (.seq (.grp "identifier_square_bracket" (.starL .dot))
      (.alt (.ch ']') .eos))

/-- Pattern `_PATTERN_IDENTIFIER_GRAVE_ACCENT`. -/
def patIdentifierGraveAccent : Re := quotedIdent gaC "identifier_grave_accent"

/-- Pattern `_PATTERN_IDENTIFIER_NO_QUOTE`: word-boundary guarded bare identifier. -/
def patIdentifierNoQuote : Re :=
  .seq (.behind true wordRs)
    (.seq
      (.grp "identifier_no_quote"
        (.seq (.cls false letterRs) (.starL (.cls false wordRs))))
      (.ahead true (.cls false wordRs)))

/-- Pattern `_PATTERN_IDENTIFIER`: the five identifier styles, in source order. -/
def patIdentifier : Re :=
  .grp "identifier"
    (.alt patIdentifierSingleQuote
      (.alt patIdentifierDoubleQuote
        (.alt patIdentifierSquareBracket
          (.alt patIdentifierGraveAccent patIdentifierNoQuote))))

/-- Apply a function to every named-group name (the source performs the same
renamings textually with `re.sub` on the pattern strings). -/
def renameGroups (f : String → String) : Re → Re
  | .seq a b => .seq (renameGroups f a) (renameGroups f b)
  | .alt a b => .alt (renameGroups f a) (renameGroups f b)
  | .starL a => .starL (renameGroups f a)
  | .starG a => .starG (renameGroups f a)
  | .opt a => .opt (renameGroups f a)
  | .ahead neg a => .ahead neg (renameGroups f a)
  | .grp gname a => .grp (f gname) (renameGroups f a)
  | x => x

/-- Drop all captures (the source rewrites `(?P<...>` and `(` to `(?:` in
`_PATTERN_IGNORE`). -/
def uncapture : Re → Re
  | .seq a b => .seq (uncapture a) (uncapture b)
  | .alt a b => .alt (uncapture a) (uncapture b)
  | .starL a => .starL (uncapture a)
  | .starG a => .starG (uncapture a)
  | .opt a => .opt (uncapture a)
  | .ahead neg a => .ahead neg (uncapture a)
  | .grp _ a => uncapture a
  | x => x

/-- Structural prefix test on character lists (kernel-evaluable). -/
def startsL : List Char → List Char → Bool
  | [], _ => true
  | _ :: _, [] => false
  | p :: ps, c :: cs => p = c && startsL ps cs

/-- Rename group names starting with `identifier` so that they start with
`new` instead (the `re.sub(r'(?<=\(\?P<)identifier', new, ...)` pass). -/
def renIdentTo (new : String) (n : String) : String :=
  if startsL "identifier".toList n.toList then
    new ++ String.mk (n.toList.drop 10)
  else n

/-- Prepend a prefix to every group name (the `_PATTERN_QUERY_RENAME` pass). -/
def renAddPre (p : String) (n : String) : String := p ++ n

/-- Pattern `_PATTERN_OBJECT_SCHEMA`. -/
def patObjectSchema : Re := renameGroups (renIdentTo "schema") patIdentifier

/-- Pattern `_PATTERN_OBJECT_TABLE`. -/
def patObjectTable : Re := renameGroups (renIdentTo "table") patIdentifier

/-- Pattern `_PATTERN_OBJECT`: optional schema part, then table identifier. -/
def patObject : Re :=
  .seq
    (.opt (.seq patObjectSchema
      (.seq (.starL patSpace) (.seq (.ch '.') (.starL patSpace)))))
    patObjectTable

/-- Pattern `_PATTERN_IGNORE`: space/comment, the four quoted styles, or any single
character; all groups made non-capturing. -/
def patIgnore : Re :=
  uncapture
    (.alt patSpace
      (.alt patIdentifierSingleQuote
        (.alt patIdentifierDoubleQuote
          (.alt patIdentifierSquareBracket
            (.alt patIdentifierGraveAccent .dot)))))

/-- Pattern `_PATTERN_QUERY_OPEN`: `(?<=^)|(?<=;)`. -/
def patQueryOpen : Re := .alt .bolB (.behind false [(';', ';')])

/-- The `IF NOT EXISTS` optional segment shared by two query patterns. -/
def ifNotExistsSeg : Re :=
  .opt (.seq (plusL patSpace)
    (.seq (kwCI "IF")
      (.seq (plusL patSpace)
        (.seq (kwCI "NOT") (.seq (plusL patSpace) (kwCI "EXISTS"))))))

/-- The `IF EXISTS` optional segment shared by the two drop patterns. -/
def ifExistsSeg : Re :=
  .opt (.seq (plusL patSpace)
    (.seq (kwCI "IF") (.seq (plusL patSpace) (kwCI "EXISTS"))))

/-- Pattern `_PATTERN_QUERY_CREATE_TABLE` (after the `create_table_` group rename). -/
def patQueryCreateTable : Re :=
  renameGroups (renAddPre "create_table_")
    (.grp "query"
      (.seq patQueryOpen
        (.seq (.starL patSpace)
          (.seq (kwCI "CREATE")
            (.seq
              (.opt (.seq (plusL patSpace)
                (.grp "temporary" (.alt (kwCI "TEMP") (kwCI "TEMPORARY")))))
              (.seq (plusL patSpace)
                (.seq (kwCI "TABLE")
                  (.seq ifNotExistsSeg (.seq (.starL patSpace) patObject)))))))))

/-- Pattern `_PATTERN_QUERY_ALTER_TABLE` (incomplete in the source by design). -/
def patQueryAlterTable : Re :=
  renameGroups (renAddPre "alter_table_")
    (.grp "query"
      (.seq patQueryOpen
        (.seq (.starL patSpace)
          (.seq (kwCI "ALTER")
            (.seq (plusL patSpace)
              (.seq (kwCI "TABLE") (.seq (.starL patSpace) patObject)))))))

/-- Pattern `_PATTERN_QUERY_DROP_TABLE`. -/
def patQueryDropTable : Re :=
  renameGroups (renAddPre "drop_table_")
    (.grp "query"
      (.seq patQueryOpen
        (.seq (.starL patSpace)
          (.seq (kwCI "DROP")
            (.seq (plusL patSpace)
              (.seq (kwCI "TABLE")
                (.seq ifExistsSeg (.seq (.starL patSpace) patObject))))))))

/-- Pattern `_PATTERN_QUERY_CREATE_VIEW`. -/
def patQueryCreateView : Re :=
  renameGroups (renAddPre "create_view_")
    (.grp "query"
      (.seq patQueryOpen
        (.seq (.starL patSpace)
          (.seq (kwCI "CREATE")
            (.seq
              (.opt (.seq (plusL patSpace)
                (.grp "temporary" (.alt (kwCI "TEMP") (kwCI "TEMPORARY")))))
              (.seq (plusL patSpace)
                (.seq (kwCI "VIEW")
                  (.seq ifNotExistsSeg (.seq (.starL patSpace) patObject)))))))))

/-- Pattern `_PATTERN_QUERY_DROP_VIEW`. -/
def patQueryDropView : Re :=
  renameGroups (renAddPre "drop_view_")
    (.grp "query"
      (.seq patQueryOpen
        (.seq (.starL patSpace)
          (.seq (kwCI "DROP")
            (.seq (plusL patSpace)
              (.seq (kwCI "VIEW")
                (.seq ifExistsSeg (.seq (.starL patSpace) patObject))))))))

/-- Pattern `_PATTERN_QUERY_ATTACH_DATABASE` (schema segment missing in the source). -/
def patQueryAttachDatabase : Re :=
  renameGroups (renAddPre "attach_database_")
    (.grp "query"
      (.seq patQueryOpen
        (.seq (.starL patSpace)
          (.seq (kwCI "ATTACH")
            (.seq (plusL patSpace)
              (.seq (kwCI "DATABASE") (plusL patSpace)))))))

/-- Pattern `_PATTERN_QUERY_DETACH_DATABASE`.  Note: the source writes the optional
`DATABASE` segment as `(:...)?` — an optional group beginning with a literal
colon — instead of `(?:...)?`, so it is transcribed as such. -/
def patQueryDetachDatabase : Re :=
  renameGroups (renAddPre "detach_database_")
    (.grp "query"
      (.seq patQueryOpen
        (.seq (.starL patSpace)
          (.seq (kwCI "DETACH")
            (.seq (.opt (.seq (.ch ':') (.seq (plusL patSpace) (kwCI "DATABASE"))))
              (.seq (.starL patSpace) patObjectSchema))))))

/-- Pattern `_PATTERN_QUERY_SELECT_FROM`. -/
def patQuerySelectFrom : Re :=
  renameGroups (renAddPre "select_from_")
    (.grp "query"
      (.seq (.behind true wordRs)
        (.seq (.alt (kwCI "FROM") (kwCI "JOIN"))
          (.seq (.starL (.alt patSpace (.ch '('))) patObject))))

/-- Pattern `_PATTERN_SIMULATE`: lazily skipped ignorables, then one of the seven
query productions or end of input. -/
def patSimulate : Re :=
  .seq (.starL patIgnore)
    (.alt patQueryCreateTable
      (.alt patQueryAlterTable
        (.alt patQueryDropTable
          (.alt patQueryCreateView
            (.alt patQueryDropView
              (.alt patQueryAttachDatabase
                (.alt patQueryDetachDatabase .eos)))))))

/-- Pattern `_PATTERN_SUBSTITUTE`. -/
def patSubstitute : Re :=
  .seq (.starL patIgnore) (.alt patQuerySelectFrom .eos)

end Sqlite6nf

namespace Sqlite6nf

/-! ## The `Cursor` statement classifier and pass-through methods -/

/-- The seven query productions distinguished by `Cursor.simulate`. -/
inductive QKind where
  | createTable | alterTable | dropTable | createView | dropView
  | attachDatabase | detachDatabase
deriving DecidableEq, Repr

/-- The `if/elif` chain of `Cursor.simulate`, which tests the truthiness of
the named `..._query` groups in source order. -/
def classify (m : MRes) : Option QKind :=
  if groupTruthy m "create_table_query" then some .createTable
  else if groupTruthy m "alter_table_query" then some .alterTable
  else if groupTruthy m "drop_table_query" then some .dropTable
  else if groupTruthy m "create_view_query" then some .createView
  else if groupTruthy m "drop_view_query" then some .dropView
  else if groupTruthy m "attach_database_query" then some .attachDatabase
  else if groupTruthy m "detach_database_query" then some .detachDatabase
  else none

/-- Name of the group holding the referenced object for each production. -/
def objGroupName : QKind → String
  | .createTable => "create_table_table"
  | .alterTable => "alter_table_table"
  | .dropTable => "drop_table_table"
  | .createView => "create_view_table"
  | .dropView => "drop_view_table"
  | .attachDatabase => "attach_database_schema"
  | .detachDatabase => "detach_database_schema"

/-- Model of `re.finditer(_PATTERN_SIMULATE, sql)` followed by the classification the
`Cursor.simulate` branch structure performs, together with the text of the
referenced object identifier group. -/
def simulateClassified (sql : List Char) : List (QKind × Option (List Char)) :=
  (findIter sql patSimulate).filterMap
    (fun m => (classify m).map (fun k => (k, capList sql m (objGroupName k))))

/-- Effect of one `Cursor.simulate` loop iteration: every branch of its
`if/elif` chain is `pass`, contributing no database operation. -/
def simulateArm : Option QKind → List Unit
  | some .createTable => []
  | some .alterTable => []
  | some .dropTable => []
  | some .createView => []
  | some .dropView => []
  | some .attachDatabase => []
  | some .detachDatabase => []
  | none => []

/-- The database operations `Cursor.simulate` performs over all matches. -/
def simulateDbOps (sql : List Char) (_transaction : Option Nat) : List Unit :=
  (findIter sql patSimulate).foldr (fun m acc => simulateArm (classify m) ++ acc) []

/-- Model of `Cursor.substitute`: when `transaction` is truthy it iterates the
`_PATTERN_SUBSTITUTE` matches with a `pass` body, and on every path returns
`sql` unchanged. -/
def substituteFn (sql : List Char) (transaction : Option Nat) : List Char :=
  match transaction with
  | some _ =>
    let _matches := findIter sql patSubstitute
    sql
  | none => sql

/-- The (sql, parameters) pair `Cursor.execute` forwards to
`sqlite3.Cursor.execute` after `simulate` (no effect) and `substitute`. -/
def executeForward (sql : List Char) (params : List String)
    (transaction : Option Nat) : List Char × List String :=
  (substituteFn sql transaction, params)

/-- The (sql, parameters) pair `Cursor.executemany` forwards. -/
def executemanyForward (sql : List Char) (params : List (List String))
    (transaction : Option Nat) : List Char × List (List String) :=
  (substituteFn sql transaction, params)

/-- The script text `Cursor.executescript` forwards. -/
def executescriptForward (sqlScript : List Char)
    (transaction : Option Nat) : List Char :=
  substituteFn sqlScript transaction

/-! ## Reference span partition, from the specification

Used to state what "inside a comment or quoted span" means for claim C1. -/

inductive SpanKind where
  | comment | quoted | plain
deriving DecidableEq, Repr

/-- Close position (exclusive) of a quote span opened with delimiter `d`:
first occurrence of `d` not immediately followed by a second `d`; a doubled
delimiter is consumed as an escape; an unterminated span extends to the end. -/
def scanQuoted (s : List Char) (d : Char) : Nat → Nat → Nat
  | 0, j => j
  | f + 1, j =>
    match getC s j with
    | none => j
    | some c =>
      if c = d then
        match getC s (j + 1) with
        | some c2 => if c2 = d then scanQuoted s d f (j + 2) else j + 1
        | none => j + 1
      else scanQuoted s d f (j + 1)

/-- Close position of a bracket-quoted span: first `]` (no escape). -/
def scanBracket (s : List Char) : Nat → Nat → Nat
  | 0, j => j
  | f + 1, j =>
    match getC s j with
    | none => j
    | some c => if c = ']' then j + 1 else scanBracket s f (j + 1)

/-- Close position of a single-line comment: after the next newline. -/
def scanLineComment (s : List Char) : Nat → Nat → Nat
  | 0, j => j
  | f + 1, j =>
    match getC s j with
    | none => j
    | some c => if c = '\n' then j + 1 else scanLineComment s f (j + 1)

/-- Close position of a multi-line comment: after the next `*/`. -/
def scanBlockComment (s : List Char) : Nat → Nat → Nat
  | 0, j => j
  | f + 1, j =>
    match getC s j with
    | none => j
    | some c =>
      if c = '*' && getC s (j + 1) = some '/' then j + 2
      else scanBlockComment s f (j + 1)

/-- Modelled from the spec (§4.1 Lexical Scanner): the left-to-right span
partition of SQL text into comments, quoted identifiers/literals and plain
characters.  Each of `'...'`, `"..."` and grave-accent quoting closes at the
first occurrence of its delimiter not immediately followed by a doubled
delimiter; brackets close at the first `]`; `--` comments close at the next
newline, `/* ... */` at the next `*/`; unterminated spans degrade to the rest
of the input.  This is the reference notion of span used by claim C1; it is
deliberately written from the spec's words, not from the source regexes. -/
def specSpansAux (s : List Char) : Nat → Nat → List (Nat × Nat × SpanKind)
  | 0, _ => []
  | f + 1, i =>
    match getC s i with
    | none => []
    | some c =>
      if c = sqC || c = dqC || c = gaC then
        let e := scanQuoted s c (s.length + 1) (i + 1)
        (i, e, .quoted) :: specSpansAux s f e
      else if c = '[' then
        let e := scanBracket s (s.length + 1) (i + 1)
        (i, e, .quoted) :: specSpansAux s f e
      else if c = '-' && getC s (i + 1) = some '-' then
        let e := scanLineComment s (s.length + 1) (i + 2)
        (i, e, .comment) :: specSpansAux s f e
      else if c = '/' && getC s (i + 1) = some '*' then
        let e := scanBlockComment s (s.length + 1) (i + 2)
        (i, e, .comment) :: specSpansAux s f e
      else (i, i + 1, .plain) :: specSpansAux s f (i + 1)

def specSpans (s : List Char) : List (Nat × Nat × SpanKind) :=
  specSpansAux s (s.length + 1) 0

/-- Position `i` lies inside a quoted span of the reference partition. -/
def inQuotedSpec (s : List Char) (i : Nat) : Bool :=
  (specSpans s).any (fun sp => sp.2.2 = SpanKind.quoted && sp.1 ≤ i && i < sp.2.1)

end Sqlite6nf

namespace Sqlite6nf

/-! ## The `Connection.normalize` statement trace

Each `cursor.execute(...)` of `Connection.normalize` (source lines 597-644)
is mirrored by one trace element. -/

/-- Column introspection row: (name, declared type). -/
abbrev ColInfo := String × String

/-- The six fixed catalog relations. -/
inductive CatRel where
  | table | tableExist | tableName | column | columnExist | columnName
deriving DecidableEq, Repr

/-- One statement executed by `normalize`, in source order of its template:
`BEGIN`/`COMMIT`, the six `CREATE TABLE IF NOT EXISTS` catalog statements,
the `INSERT OR ROLLBACK` catalog inserts, the per-table shadow-relation and
trigger creations. -/
inductive Op where
  | sqlBegin
  | sqlCommit
  | createCatalog (r : CatRel)
  | insTable (id : Nat)
  | insTableExist (id t e : Nat)
  | insTableName (id t : Nat) (nm : String)
  | insColumn (id tableId : Nat)
  | insColumnExist (id t e : Nat)
  | insColumnName (id t : Nat) (nm : String)
  | createInstanceRel (tableId : Nat)
  | createInstanceExistRel (tableId : Nat)
  | createValueRel (tableId columnId : Nat) (dtype : String)
  | trgInsertInstance (tableId : Nat) (tableNm : String)
  | trgDeleteInstance (tableId : Nat) (tableNm : String)
  | trgInsertValue (tableId columnId : Nat) (tableNm colNm : String)
  | trgUpdateValue (tableId columnId : Nat) (tableNm colNm : String)
deriving DecidableEq, Repr

/-- The `tables` argument of `normalize`: `None`, a single string, or an
iterable of strings. -/
inductive Selector where
  | all
  | one (t : String)
  | many (ts : List String)

/-- Shadow relations, identified the way their generated names
`sqlite6nf_{table_id}`/`sqlite6nf_{table_id}_{column_id}` are. -/
inductive RelId where
  | fixed (r : CatRel)
  | inst (tableId : Nat)
  | instExist (tableId : Nat)
  | value (tableId columnId : Nat)
deriving DecidableEq, Repr

/-- Generated triggers, identified the way their generated names are. -/
inductive TrgId where
  | insInst (tableId : Nat)
  | delInst (tableId : Nat)
  | insVal (tableId columnId : Nat)
  | updVal (tableId columnId : Nat)
deriving DecidableEq, Repr

/-- The mutable database state the catalog statements touch: the six catalog
relations (rows as (id, transaction, payload) triples), plus which relations
and triggers exist. -/
structure Cat where
  tableIds : List Nat
  tableExist : List (Nat × Nat × Nat)
  tableName : List (Nat × Nat × String)
  columnIds : List (Nat × Nat)
  columnExist : List (Nat × Nat × Nat)
  columnName : List (Nat × Nat × String)
  rels : List RelId
  trgs : List TrgId
deriving DecidableEq, Repr

/-- ASCII lower-casing, as SQLite's `lower` on these names. -/
def lowerC (c : Char) : Char :=
  if 'A' ≤ c && c ≤ 'Z' then Char.ofNat (c.toNat + 32) else c

/-- Test `lower(name) GLOB 'sqlite6nf_*'`. -/
def reservedName (n : String) : Bool :=
  startsL "sqlite6nf_".toList (n.toList.map lowerC)

/-- The names recorded in the Table name-history relation. -/
def trackedNames (cat : Cat) : List String := cat.tableName.map (fun r => r.2.2)

/-- Query `_SQL_SELECT_FROM_SQLITE_SCHEMA`: live tables of type `table`, without
the reserved prefix, having no row yet in `sqlite6nf_table_name`. -/
def schemaSelect (schema : List (String × String)) (cat : Cat) : List String :=
  (schema.filter (fun r =>
    r.2 = "table" && !reservedName r.1 && !(trackedNames cat).contains r.1)).map
    (fun r => r.1)

/-- Query `_SQL_SELECT_FROM_PRAGMA_TABLE_INFO`: per-column (name, declared type) of
`:name`, provided `:name` is a live non-reserved table. -/
def introspect (schema : List (String × String))
    (colsDb : List (String × List ColInfo)) (nm : String) : List ColInfo :=
  if schema.any (fun r => r.1 = nm && r.2 = "table") && !reservedName nm then
    ((colsDb.find? (fun p => p.1 = nm)).map (fun p => p.2)).getD []
  else []

/-- The `tables` resolution of `normalize` (lines 612-616): `None` resolves
through the schema query; a string becomes a one-element list; an iterable is
used as given. -/
def resolveTables (schema : List (String × String)) (cat : Cat) :
    Selector → List String
  | .all => schemaSelect schema cat
  | .one t => [t]
  | .many ts => ts

def maxNat : List Nat → Nat
  | [] => 0
  | x :: xs => max x (maxNat xs)

/-- Rowid allocation for `INSERT ... VALUES (NULL)` on an
`INTEGER PRIMARY KEY` relation: largest existing id plus one. -/
def nextTableId (cat : Cat) : Nat := maxNat cat.tableIds + 1

def nextColumnId (cat : Cat) : Nat := maxNat (cat.columnIds.map (fun p => p.1)) + 1

/-- The inner column loop of `normalize` (lines 631-640): allocate the column
id, insert existence and name history rows, create the Value relation, create
the column's AFTER INSERT and AFTER UPDATE OF triggers. -/
def colsOps (tid now : Nat) (tableNm : String) : Nat → List ColInfo → List Op
  | _, [] => []
  | cid, (colNm, dtype) :: rest =>
    [.insColumn cid tid,
     .insColumnExist cid now 1,
     .insColumnName cid now colNm,
     .createValueRel tid cid dtype,
     .trgInsertValue tid cid tableNm colNm,
     .trgUpdateValue tid cid tableNm colNm]
    ++ colsOps tid now tableNm (cid + 1) rest

/-- The per-table body of `normalize` (lines 619-640): allocate the table id,
insert existence and name history rows, create the Instance relation and its
existence relation, create the table-level AFTER INSERT and AFTER DELETE
triggers, then handle each introspected column. -/
def tableOps (schema : List (String × String))
    (colsDb : List (String × List ColInfo)) (now tid cid : Nat)
    (nm : String) : List Op :=
  [.insTable tid,
   .insTableExist tid now 1,
   .insTableName tid now nm,
   .createInstanceRel tid,
   .createInstanceExistRel tid,
   .trgInsertInstance tid nm,
   .trgDeleteInstance tid nm]
  ++ colsOps tid now nm cid (introspect schema colsDb nm)

/-- The table loop, threading the id counters. -/
def tablesOps (schema : List (String × String))
    (colsDb : List (String × List ColInfo)) (now : Nat) :
    Nat → Nat → List String → List Op
  | _, _, [] => []
  | tid, cid, nm :: rest =>
    tableOps schema colsDb now tid cid nm
    ++ tablesOps schema colsDb now (tid + 1)
        (cid + (introspect schema colsDb nm).length) rest

/-- The six `CREATE TABLE IF NOT EXISTS` catalog statements (lines 606-611). -/
def catalogCreates : List Op :=
  [.createCatalog .table, .createCatalog .tableExist, .createCatalog .tableName,
   .createCatalog .column, .createCatalog .columnExist, .createCatalog .columnName]

/-- The full statement trace of one `normalize` call: `BEGIN` only when the
connection was not already inside a transaction at entry, the catalog
bootstrap, one transaction-time `now` recorded once for the call, the table
loop, and `COMMIT` only when this call issued the `BEGIN`. -/
def normalizeOps (schema : List (String × String))
    (colsDb : List (String × List ColInfo)) (cat : Cat) (sel : Selector)
    (inTxn : Bool) (now : Nat) : List Op :=
  (if inTxn then [] else [.sqlBegin])
  ++ catalogCreates
  ++ tablesOps schema colsDb now (nextTableId cat) (nextColumnId cat)
      (resolveTables schema cat sel)
  ++ (if inTxn then [] else [.sqlCommit])

/-! ## A transactional machine for the catalog statements -/

/-- A uniqueness-constraint violation on a catalog relation. -/
inductive SqlErr where
  | uniq (r : CatRel)
deriving DecidableEq, Repr

/-- The conflict clause a statement carries.  Every catalog insert template
of the source reads `INSERT OR ROLLBACK INTO ...`. -/
inductive Policy where
  | rollback | abort
deriving DecidableEq, Repr

/-- Conflict policy per statement: the six catalog insert templates all carry
`OR ROLLBACK`; the remaining statements cannot hit a uniqueness conflict. -/
def policyOf : Op → Policy
  | .insTable _ => .rollback
  | .insTableExist _ _ _ => .rollback
  | .insTableName _ _ _ => .rollback
  | .insColumn _ _ => .rollback
  | .insColumnExist _ _ _ => .rollback
  | .insColumnName _ _ _ => .rollback
  | _ => .abort

/-- Add an element to a list if it is absent (`CREATE ... IF NOT EXISTS`). -/
def addIfAbsent {α : Type} [DecidableEq α] (x : α) (l : List α) : List α :=
  if l.contains x then l else l ++ [x]

/-- Execute one statement against the catalog state.  Inserts enforce the
primary keys of §6: `sqlite6nf_table`/`sqlite6nf_column` on `id`, the four
history relations on `(id, transaction)`; creations are idempotent. -/
def execOp (cat : Cat) : Op → Except SqlErr Cat
  | .sqlBegin => .ok cat
  | .sqlCommit => .ok cat
  | .createCatalog r => .ok { cat with rels := addIfAbsent (.fixed r) cat.rels }
  | .insTable id =>
    if cat.tableIds.contains id then .error (.uniq .table)
    else .ok { cat with tableIds := cat.tableIds ++ [id] }
  | .insTableExist id t e =>
    if cat.tableExist.any (fun r => r.1 = id && r.2.1 = t) then
      .error (.uniq .tableExist)
    else .ok { cat with tableExist := cat.tableExist ++ [(id, t, e)] }
  | .insTableName id t nm =>
    if cat.tableName.any (fun r => r.1 = id && r.2.1 = t) then
      .error (.uniq .tableName)
    else .ok { cat with tableName := cat.tableName ++ [(id, t, nm)] }
  | .insColumn id tableId =>
    if cat.columnIds.any (fun p => p.1 = id) then .error (.uniq .column)
    else .ok { cat with columnIds := cat.columnIds ++ [(id, tableId)] }
  | .insColumnExist id t e =>
    if cat.columnExist.any (fun r => r.1 = id && r.2.1 = t) then
      .error (.uniq .columnExist)
    else .ok { cat with columnExist := cat.columnExist ++ [(id, t, e)] }
  | .insColumnName id t nm =>
    if cat.columnName.any (fun r => r.1 = id && r.2.1 = t) then
      .error (.uniq .columnName)
    else .ok { cat with columnName := cat.columnName ++ [(id, t, nm)] }
  | .createInstanceRel tid => .ok { cat with rels := addIfAbsent (.inst tid) cat.rels }
  | .createInstanceExistRel tid =>
    .ok { cat with rels := addIfAbsent (.instExist tid) cat.rels }
  | .createValueRel tid cid _ =>
    .ok { cat with rels := addIfAbsent (.value tid cid) cat.rels }
  | .trgInsertInstance tid _ => .ok { cat with trgs := addIfAbsent (.insInst tid) cat.trgs }
  | .trgDeleteInstance tid _ => .ok { cat with trgs := addIfAbsent (.delInst tid) cat.trgs }
  | .trgInsertValue tid cid _ _ =>
    .ok { cat with trgs := addIfAbsent (.insVal tid cid) cat.trgs }
  | .trgUpdateValue tid cid _ _ =>
    .ok { cat with trgs := addIfAbsent (.updVal tid cid) cat.trgs }

/-- Run a statement list.  `snap` is the state at the start of the enclosing
transaction; a failing statement whose conflict clause is `OR ROLLBACK` rolls
the whole transaction back to `snap` and surfaces the error unmodified
(SQLite's documented `ON CONFLICT ROLLBACK` behaviour); `normalize` itself
installs no handler, so execution stops at the first error. -/
def runOps (snap : Cat) : Cat → List Op → Cat × Option SqlErr
  | cat, [] => (cat, none)
  | cat, op :: rest =>
    match execOp cat op with
    | .ok c2 => runOps snap c2 rest
    | .error e =>
      match policyOf op with
      | .rollback => (snap, some e)
      | .abort => (cat, some e)

/-- One `normalize` call against the machine.  When the caller already holds
a transaction (`inTxn`), its start state `txnStart` is the rollback target;
otherwise this call's `BEGIN` makes the entry state the target. -/
def runNormalize (schema : List (String × String))
    (colsDb : List (String × List ColInfo)) (cat txnStart : Cat)
    (inTxn : Bool) (sel : Selector) (now : Nat) : Cat × Option SqlErr :=
  let snap := if inTxn then txnStart else cat
  runOps snap cat (normalizeOps schema colsDb cat sel inTxn now)

end Sqlite6nf

namespace Sqlite6nf

/-! ## Runtime behaviour of the generated triggers

Transcribed from the four trigger templates (source lines 178-220): every
trigger body consists solely of `INSERT INTO` statements on the shadow
relations. -/

/-- Shadow state of one tracked table: the Instance relation, its existence
history, and one Value history per column name. -/
structure Shadow where
  instRows : List Nat
  existRows : List (Nat × Nat × Nat)
  valRows : String → List (Nat × Nat × String)

/-- One data-changing statement on the tracked base table.  `newRow` gives
the `NEW` row values per column name; `changed` lists the columns an UPDATE
assigns (its `AFTER UPDATE OF c` triggers fire exactly for those). -/
inductive Act where
  | insertRow (rid : Nat) (newRow : String → String)
  | updateRow (rid : Nat) (changed : List String) (newRow : String → String)
  | deleteRow (rid : Nat)

/-- Fire the generated triggers of a table whose tracked columns are `cols`
for one statement at trigger time `now`:

* AFTER INSERT: one Instance row and one existence row `(rid, now, 1)`, and
  for every tracked column one Value row `(rid, now, NEW.c)`;
* AFTER UPDATE OF c: one Value row `(rid, now, NEW.c)` for each updated
  tracked column;
* AFTER DELETE: one existence row `(rid, now, 0)`.

Every effect is an insertion at the end of a shadow relation. -/
def fireTriggers (cols : List String) (st : Shadow) (now : Nat) : Act → Shadow
  | .insertRow rid newRow =>
    { instRows := st.instRows ++ [rid]
      existRows := st.existRows ++ [(rid, now, 1)]
      valRows := fun c =>
        st.valRows c ++ (if cols.contains c then [(rid, now, newRow c)] else []) }
  | .updateRow rid changed newRow =>
    { st with
      valRows := fun c =>
        st.valRows c ++
          (if cols.contains c && changed.contains c then [(rid, now, newRow c)]
           else []) }
  | .deleteRow rid =>
    { st with existRows := st.existRows ++ [(rid, now, 0)] }

/-- Run a sequence of (statement, trigger-time) pairs. -/
def runActs (cols : List String) : Shadow → List (Act × Nat) → Shadow
  | st, [] => st
  | st, (a, now) :: rest => runActs cols (fireTriggers cols st now a) rest

/-- Relation `Appends a b`: `b` extends `a` at the end; no element of `a` is altered
or removed, and the length cannot decrease. -/
def Appends {α : Type} (a b : List α) : Prop := ∃ t, b = a ++ t

theorem Appends.rfl {α : Type} (a : List α) : Appends a a := ⟨[], by simp⟩

theorem Appends.trans {α : Type} {a b c : List α} (h1 : Appends a b)
    (h2 : Appends b c) : Appends a c := by
  obtain ⟨t1, rfl⟩ := h1
  obtain ⟨t2, rfl⟩ := h2
  exact ⟨t1 ++ t2, by simp⟩

theorem Appends.length_le {α : Type} {a b : List α} (h : Appends a b) :
    a.length ≤ b.length := by
  obtain ⟨t, rfl⟩ := h
  simp

end Sqlite6nf

namespace Sqlite6nf

/-! ## Theorems for the claims -/

theorem simulateArm_nil (k : Option QKind) : simulateArm k = [] := by
  cases k with
  | none => rfl
  | some q => cases q <;> rfl

theorem simulateDbOps_nil (sql : List Char) (t : Option Nat) :
    simulateDbOps sql t = [] := by
  unfold simulateDbOps
  induction findIter sql patSimulate with
  | nil => rfl
  | cons m rest ih => simp [List.foldr, simulateArm_nil, ih]

/-- Claim C10 (confirmed).  For every SQL text and every value of the
optional as-of `transaction` argument, `Cursor.substitute` returns its input
unchanged and `Cursor.simulate` performs no database operation, so
`Cursor.execute`, `Cursor.executemany` and `Cursor.executescript` forward
exactly the caller's statement text (and parameters) to the underlying
`sqlite3` methods; the as-of parameter has no observable effect. -/
theorem c10_execute_passthrough (sql : List Char) (params : List String)
    (manyParams : List (List String)) (t : Option Nat) :
    substituteFn sql t = sql ∧
    simulateDbOps sql t = [] ∧
    executeForward sql params t = (sql, params) ∧
    executemanyForward sql manyParams t = (sql, manyParams) ∧
    executescriptForward sql t = sql := by
  have hs : substituteFn sql t = sql := by cases t <;> rfl
  exact ⟨hs, simulateDbOps_nil sql t,
    by simp [executeForward, hs], by simp [executemanyForward, hs],
    by simp [executescriptForward, hs]⟩

theorem fireTriggers_appends (cols : List String) (st : Shadow) (now : Nat)
    (a : Act) :
    Appends st.instRows (fireTriggers cols st now a).instRows ∧
    Appends st.existRows (fireTriggers cols st now a).existRows ∧
    ∀ c, Appends (st.valRows c) ((fireTriggers cols st now a).valRows c) := by
  cases a with
  | insertRow rid newRow =>
    exact ⟨⟨[rid], rfl⟩, ⟨[(rid, now, 1)], rfl⟩, fun c => ⟨_, rfl⟩⟩
  | updateRow rid changed newRow =>
    exact ⟨⟨[], by simp [fireTriggers]⟩, ⟨[], by simp [fireTriggers]⟩,
      fun c => ⟨_, rfl⟩⟩
  | deleteRow rid =>
    exact ⟨⟨[], by simp [fireTriggers]⟩, ⟨[(rid, now, 0)], rfl⟩,
      fun c => ⟨[], by simp [fireTriggers]⟩⟩

theorem runActs_appends (cols : List String) :
    ∀ (acts : List (Act × Nat)) (st : Shadow),
    Appends st.instRows (runActs cols st acts).instRows ∧
    Appends st.existRows (runActs cols st acts).existRows ∧
    ∀ c, Appends (st.valRows c) ((runActs cols st acts).valRows c) := by
  intro acts
  induction acts with
  | nil => exact fun st => ⟨Appends.rfl _, Appends.rfl _, fun c => Appends.rfl _⟩
  | cons p rest ih =>
    intro st
    obtain ⟨h1, h2, h3⟩ := fireTriggers_appends cols st p.2 p.1
    obtain ⟨g1, g2, g3⟩ := ih (fireTriggers cols st p.2 p.1)
    exact ⟨h1.trans g1, h2.trans g2, fun c => (h3 c).trans (g3 c)⟩

/-- Claim C6 (confirmed).  After any sequence of INSERT, UPDATE and DELETE
statements on a tracked table, the generated triggers only ever append rows
to the Instance, existence-history and Value shadow relations: every relation
of the initial state is an unchanged prefix of the final one, so no
previously present row is altered or removed and the row counts are
non-decreasing over the whole sequence. -/
theorem c6_triggers_append_only (cols : List String)
    (acts : List (Act × Nat)) (st : Shadow) :
    Appends st.instRows (runActs cols st acts).instRows ∧
    Appends st.existRows (runActs cols st acts).existRows ∧
    (∀ c, Appends (st.valRows c) ((runActs cols st acts).valRows c)) ∧
    st.existRows.length ≤ (runActs cols st acts).existRows.length ∧
    ∀ c, (st.valRows c).length ≤ ((runActs cols st acts).valRows c).length := by
  obtain ⟨h1, h2, h3⟩ := runActs_appends cols acts st
  exact ⟨h1, h2, h3, h2.length_le, fun c => (h3 c).length_le⟩

end Sqlite6nf

namespace Sqlite6nf

/-! ## Concrete inputs for the scanner/classifier claims

Quote characters inside the inputs are written with escape codes:
`\x27` single quote, `\x22` double quote, `\x60` grave accent. -/

/-- Input whose second string literal contains `;CREATE TABLE y`:
`SELECT '' ';CREATE TABLE y'`. -/
def inpQuotedSemi : List Char := "SELECT \x27\x27 \x27;CREATE TABLE y\x27".toList

/-- Input `CREATE /* TABLE fake */ TABLE x`. -/
def inpCommentFake : List Char := "CREATE /* TABLE fake */ TABLE x".toList

/-- Input `SELECT ';CREATE TABLE y'`. -/
def inpLiteralSemi : List Char := "SELECT \x27;CREATE TABLE y\x27".toList

/-- Claim C1 (refuted as universally stated): in the input
`SELECT '' ';CREATE TABLE y'`, the whole text `;CREATE TABLE y` (positions
11-25) lies inside a quoted span of the reference span partition — the second
string literal `';CREATE TABLE y'` — yet the statement classifier matches the
create-table production there and extracts object `y`: the semicolon inside
the string literal acts as a statement boundary, because the scanner pairs
the quote delimiters differently (it takes `'' '` as one quoted span). -/
theorem c1_counterexample :
    ((List.range 15).all (fun k => inQuotedSpec inpQuotedSemi (11 + k))) = true ∧
    simulateClassified inpQuotedSemi =
      [(QKind.createTable, some ("y".toList))] :=
  ⟨rfl, rfl⟩

/-- Claim C1 (amended): on statements whose quoted spans are scanned the same
way the engine lexes them, text inside comments or quotes is not matched:
`CREATE /* TABLE fake */ TABLE x` classifies as CREATE TABLE on object `x`
and only on `x` (never on `fake`), and `SELECT ';CREATE TABLE y'` produces no
classification at all — the semicolon inside that string literal does not
split the statement. -/
theorem c1_amended :
    simulateClassified inpCommentFake =
      [(QKind.createTable, some ("x".toList))] ∧
    simulateClassified inpLiteralSemi = [] :=
  ⟨rfl, rfl⟩

/-- Claim C7 (refuted as universally stated): the quoted-identifier patterns
do not match an identifier whose quoted content is empty or consists solely
of doubled delimiters; `''` and `''''` produce no match at all instead of
scanning as one complete quoted-identifier span. -/
theorem c7_counterexample :
    searchPat ("\x27\x27".toList) patIdentifierSingleQuote = none ∧
    searchPat ("\x27\x27\x27\x27".toList) patIdentifierSingleQuote = none :=
  ⟨rfl, rfl⟩

/-- Claim C7 (amended): when the quoted content contains at least one
non-delimiter character, each of the single-quote, double-quote and
grave-accent patterns closes its span at the first occurrence of the
delimiter not immediately followed by a doubled delimiter (doubled delimiters
inside the span are consumed as escapes): `'ab''cd'x`, `"ab""cd"x` and
(grave-accent) `` `ab``cd`x `` scan as spans of width 8 with raw contents
`ab''cd`, `ab""cd`, ``ab``cd``, and `'a'''` closes at its final delimiter;
but contents that are empty or all delimiters (`""`, ` `` `) are not matched
at all. -/
theorem c7_amended :
    (searchPat ("\x27ab\x27\x27cd\x27x".toList) patIdentifierSingleQuote).map
        (fun m => (m.start, m.stop,
          capList ("\x27ab\x27\x27cd\x27x".toList) m "identifier_single_quote"))
      = some (0, 8, some ("ab\x27\x27cd".toList)) ∧
    (searchPat ("\x27a\x27\x27\x27".toList) patIdentifierSingleQuote).map
        (fun m => (m.start, m.stop,
          capList ("\x27a\x27\x27\x27".toList) m "identifier_single_quote"))
      = some (0, 5, some ("a\x27\x27".toList)) ∧
    (searchPat ("\x22ab\x22\x22cd\x22x".toList) patIdentifierDoubleQuote).map
        (fun m => (m.start, m.stop,
          capList ("\x22ab\x22\x22cd\x22x".toList) m "identifier_double_quote"))
      = some (0, 8, some ("ab\x22\x22cd".toList)) ∧
    (searchPat ("\x60ab\x60\x60cd\x60x".toList) patIdentifierGraveAccent).map
        (fun m => (m.start, m.stop,
          capList ("\x60ab\x60\x60cd\x60x".toList) m "identifier_grave_accent"))
      = some (0, 8, some ("ab\x60\x60cd".toList)) ∧
    searchPat ("\x22\x22".toList) patIdentifierDoubleQuote = none ∧
    searchPat ("\x60\x60".toList) patIdentifierGraveAccent = none :=
  ⟨rfl, rfl, rfl, rfl, rfl, rfl⟩

/-- Input `"He said ""hi"""` of claim C8. -/
def inpHeSaid : List Char := "\x22He said \x22\x22hi\x22\x22\x22".toList

/-- Claim C8 (refuted as stated): scanning does not decode doubled
delimiters.  On `"He said ""hi"""` the captured identifier group is the raw
inner text `He said ""hi""`, not the logical identifier `He said "hi"`. -/
theorem c8_counterexample :
    (searchPat inpHeSaid patIdentifierDoubleQuote).map
        (fun m => capList inpHeSaid m "identifier_double_quote")
      = some (some ("He said \x22\x22hi\x22\x22".toList)) ∧
    ("He said \x22\x22hi\x22\x22".toList ≠ "He said \x22hi\x22".toList) :=
  ⟨rfl, by decide⟩

/-- Claim C8 (amended): the identifier group captures the raw span content,
so re-serializing — wrapping the captured text back in its delimiters —
reproduces the original text verbatim, doubled-delimiter escapes included;
shown for `"He said ""hi"""`, `'ab''cd'` and (grave-accent) `` `ab``cd` ``.
The doubled delimiters are preserved, not decoded. -/
theorem c8_amended :
    [dqC] ++ ("He said \x22\x22hi\x22\x22".toList) ++ [dqC] = inpHeSaid ∧
    (searchPat ("\x27ab\x27\x27cd\x27".toList) patIdentifierSingleQuote).map
        (fun m => capList ("\x27ab\x27\x27cd\x27".toList) m
          "identifier_single_quote")
      = some (some ("ab\x27\x27cd".toList)) ∧
    [sqC] ++ ("ab\x27\x27cd".toList) ++ [sqC] = "\x27ab\x27\x27cd\x27".toList ∧
    (searchPat ("\x60ab\x60\x60cd\x60".toList) patIdentifierGraveAccent).map
        (fun m => capList ("\x60ab\x60\x60cd\x60".toList) m
          "identifier_grave_accent")
      = some (some ("ab\x60\x60cd".toList)) ∧
    [gaC] ++ ("ab\x60\x60cd".toList) ++ [gaC] = "\x60ab\x60\x60cd\x60".toList :=
  ⟨rfl, rfl, rfl, rfl, rfl⟩

/-- Input `DETACH DATABASE s`. -/
def inpDetachDb : List Char := "DETACH DATABASE s".toList

/-- Input `DETACH s`. -/
def inpDetach : List Char := "DETACH s".toList

/-- Claim C9 (code bug).  On `DETACH DATABASE s` the detach-database pattern
matches but extracts `DATABASE` — not `s` — as the schema identifier, because
the optional `DATABASE` keyword segment is written `(:...)?` (requiring a
literal colon) instead of `(?:...)?` in the source; the bare form `DETACH s`
extracts `s` as intended. -/
theorem c9_detach_database_schema :
    (searchPat inpDetachDb patQueryDetachDatabase).map
        (fun m => capList inpDetachDb m "detach_database_schema")
      = some (some ("DATABASE".toList)) ∧
    (searchPat inpDetach patQueryDetachDatabase).map
        (fun m => capList inpDetach m "detach_database_schema")
      = some (some ("s".toList)) :=
  ⟨rfl, rfl⟩

end Sqlite6nf

namespace Sqlite6nf

/-! ## Counting statements in the `normalize` trace -/

def countP (l : List Op) (p : Op → Bool) : Nat := (l.filter p).length

theorem countP_append (a b : List Op) (p : Op → Bool) :
    countP (a ++ b) p = countP a p + countP b p := by
  simp [countP, List.filter_append]

def isCreateInstanceRel : Op → Bool
  | .createInstanceRel _ => true
  | _ => false

def isCreateInstanceExistRel : Op → Bool
  | .createInstanceExistRel _ => true
  | _ => false

def isCreateValueRel : Op → Bool
  | .createValueRel _ _ _ => true
  | _ => false

def isTrgInsertInstance : Op → Bool
  | .trgInsertInstance _ _ => true
  | _ => false

def isTrgDeleteInstance : Op → Bool
  | .trgDeleteInstance _ _ => true
  | _ => false

def isTrgInsertValue : Op → Bool
  | .trgInsertValue _ _ _ _ => true
  | _ => false

def isTrgUpdateValue : Op → Bool
  | .trgUpdateValue _ _ _ _ => true
  | _ => false

def isInsTableExist : Op → Bool
  | .insTableExist _ _ _ => true
  | _ => false

def isInsTableName : Op → Bool
  | .insTableName _ _ _ => true
  | _ => false

def isInsColumnExist : Op → Bool
  | .insColumnExist _ _ _ => true
  | _ => false

def isInsColumnName : Op → Bool
  | .insColumnName _ _ _ => true
  | _ => false

def isBeginOp : Op → Bool
  | .sqlBegin => true
  | _ => false

def isCommitOp : Op → Bool
  | .sqlCommit => true
  | _ => false

theorem colsOps_countP (tid now : Nat) (tableNm : String) (p : Op → Bool)
    (w : Nat)
    (h : ∀ cid colNm dtype,
      countP [Op.insColumn cid tid, Op.insColumnExist cid now 1,
        Op.insColumnName cid now colNm, Op.createValueRel tid cid dtype,
        Op.trgInsertValue tid cid tableNm colNm,
        Op.trgUpdateValue tid cid tableNm colNm] p = w) :
    ∀ (cols : List ColInfo) (cid : Nat),
      countP (colsOps tid now tableNm cid cols) p = w * cols.length := by
  intro cols
  induction cols with
  | nil => intro cid; simp [colsOps, countP]
  | cons colInfo rest ih =>
    intro cid
    obtain ⟨colNm, dtype⟩ := colInfo
    rw [colsOps, countP_append, h cid colNm dtype, ih (cid + 1),
      List.length_cons, Nat.mul_succ, Nat.add_comm]

/-- Eligibility filter of §4.3: a live table of kind `table`, without the
reserved catalog prefix, with no row yet in the Table name-history relation. -/
def Eligible (schema : List (String × String)) (cat : Cat) (nm : String) :
    Prop :=
  (nm, "table") ∈ schema ∧ reservedName nm = false ∧ nm ∉ trackedNames cat

instance (schema : List (String × String)) (cat : Cat) (nm : String) :
    Decidable (Eligible schema cat nm) := by
  unfold Eligible
  infer_instance

theorem countP_normalize_one (schema : List (String × String))
    (colsDb : List (String × List ColInfo)) (cat : Cat) (inTxn : Bool)
    (now : Nat) (T : String) (p : Op → Bool) (w7 w : Nat)
    (h7 : countP
      [Op.insTable (nextTableId cat), Op.insTableExist (nextTableId cat) now 1,
       Op.insTableName (nextTableId cat) now T,
       Op.createInstanceRel (nextTableId cat),
       Op.createInstanceExistRel (nextTableId cat),
       Op.trgInsertInstance (nextTableId cat) T,
       Op.trgDeleteInstance (nextTableId cat) T] p = w7)
    (hcol : ∀ cid colNm dtype,
      countP [Op.insColumn cid (nextTableId cat),
        Op.insColumnExist cid now 1, Op.insColumnName cid now colNm,
        Op.createValueRel (nextTableId cat) cid dtype,
        Op.trgInsertValue (nextTableId cat) cid T colNm,
        Op.trgUpdateValue (nextTableId cat) cid T colNm] p = w)
    (hb : p .sqlBegin = false) (hcm : p .sqlCommit = false)
    (hcat : countP catalogCreates p = 0) :
    countP (normalizeOps schema colsDb cat (.one T) inTxn now) p =
      w7 + w * (introspect schema colsDb T).length := by
  have hcols := colsOps_countP (nextTableId cat) now T p w hcol
  have hbeg : countP (if inTxn then ([] : List Op) else [Op.sqlBegin]) p = 0 := by
    cases inTxn <;> simp [countP, List.filter_cons, List.filter_nil, hb]
  have hcom : countP (if inTxn then ([] : List Op) else [Op.sqlCommit]) p = 0 := by
    cases inTxn <;> simp [countP, List.filter_cons, List.filter_nil, hcm]
  simp only [normalizeOps, resolveTables, tablesOps, tableOps, List.append_nil,
    countP_append, hbeg, hcom, hcat, h7, hcols]
  generalize w * (introspect schema colsDb T).length = M
  omega

/-- Claim C2 (confirmed).  For every eligible table `T` with `N` introspected
columns, one `normalize` call on `T` creates exactly 1 Instance relation, 1
Instance-existence relation, `N` Value relations, 1 AFTER INSERT and 1 AFTER
DELETE table-level trigger, `N` AFTER INSERT and `N` AFTER UPDATE OF
column-level triggers, and inserts exactly 1 Table existence and 1 Table name
history row and `N` Column existence and `N` Column name history rows. -/
theorem c2_normalize_counts (schema : List (String × String))
    (colsDb : List (String × List ColInfo)) (cat : Cat) (inTxn : Bool)
    (now : Nat) (T : String) (_h : Eligible schema cat T) :
    countP (normalizeOps schema colsDb cat (.one T) inTxn now)
        isCreateInstanceRel = 1 ∧
    countP (normalizeOps schema colsDb cat (.one T) inTxn now)
        isCreateInstanceExistRel = 1 ∧
    countP (normalizeOps schema colsDb cat (.one T) inTxn now)
        isCreateValueRel = (introspect schema colsDb T).length ∧
    countP (normalizeOps schema colsDb cat (.one T) inTxn now)
        isTrgInsertInstance = 1 ∧
    countP (normalizeOps schema colsDb cat (.one T) inTxn now)
        isTrgDeleteInstance = 1 ∧
    countP (normalizeOps schema colsDb cat (.one T) inTxn now)
        isTrgInsertValue = (introspect schema colsDb T).length ∧
    countP (normalizeOps schema colsDb cat (.one T) inTxn now)
        isTrgUpdateValue = (introspect schema colsDb T).length ∧
    countP (normalizeOps schema colsDb cat (.one T) inTxn now)
        isInsTableExist = 1 ∧
    countP (normalizeOps schema colsDb cat (.one T) inTxn now)
        isInsTableName = 1 ∧
    countP (normalizeOps schema colsDb cat (.one T) inTxn now)
        isInsColumnExist = (introspect schema colsDb T).length ∧
    countP (normalizeOps schema colsDb cat (.one T) inTxn now)
        isInsColumnName = (introspect schema colsDb T).length := by
  refine ⟨?_, ?_, ?_, ?_, ?_, ?_, ?_, ?_, ?_, ?_, ?_⟩
  · simpa using countP_normalize_one schema colsDb cat inTxn now T
      isCreateInstanceRel 1 0 rfl (fun _ _ _ => rfl) rfl rfl rfl
  · simpa using countP_normalize_one schema colsDb cat inTxn now T
      isCreateInstanceExistRel 1 0 rfl (fun _ _ _ => rfl) rfl rfl rfl
  · simpa using countP_normalize_one schema colsDb cat inTxn now T
      isCreateValueRel 0 1 rfl (fun _ _ _ => rfl) rfl rfl rfl
  · simpa using countP_normalize_one schema colsDb cat inTxn now T
      isTrgInsertInstance 1 0 rfl (fun _ _ _ => rfl) rfl rfl rfl
  · simpa using countP_normalize_one schema colsDb cat inTxn now T
      isTrgDeleteInstance 1 0 rfl (fun _ _ _ => rfl) rfl rfl rfl
  · simpa using countP_normalize_one schema colsDb cat inTxn now T
      isTrgInsertValue 0 1 rfl (fun _ _ _ => rfl) rfl rfl rfl
  · simpa using countP_normalize_one schema colsDb cat inTxn now T
      isTrgUpdateValue 0 1 rfl (fun _ _ _ => rfl) rfl rfl rfl
  · simpa using countP_normalize_one schema colsDb cat inTxn now T
      isInsTableExist 1 0 rfl (fun _ _ _ => rfl) rfl rfl rfl
  · simpa using countP_normalize_one schema colsDb cat inTxn now T
      isInsTableName 1 0 rfl (fun _ _ _ => rfl) rfl rfl rfl
  · simpa using countP_normalize_one schema colsDb cat inTxn now T
      isInsColumnExist 0 1 rfl (fun _ _ _ => rfl) rfl rfl rfl
  · simpa using countP_normalize_one schema colsDb cat inTxn now T
      isInsColumnName 0 1 rfl (fun _ _ _ => rfl) rfl rfl rfl

end Sqlite6nf

namespace Sqlite6nf

/-- Concrete schema for the C2 witness. -/
def schemaW2 : List (String × String) := [("u", "table")]

/-- Concrete column introspection for the C2 witness. -/
def colsDbW2 : List (String × List ColInfo) :=
  [("u", [("a", "INTEGER"), ("b", "TEXT")])]

/-- Empty catalog state. -/
def catEmpty : Cat := ⟨[], [], [], [], [], [], [], []⟩

/-- Witness for claim C2 at table `u` with two columns. -/
theorem c2_normalize_counts_witness :
    Eligible schemaW2 catEmpty "u" ∧
    (countP (normalizeOps schemaW2 colsDbW2 catEmpty (.one "u") false 3)
        isCreateInstanceRel = 1 ∧
     countP (normalizeOps schemaW2 colsDbW2 catEmpty (.one "u") false 3)
        isCreateInstanceExistRel = 1 ∧
     countP (normalizeOps schemaW2 colsDbW2 catEmpty (.one "u") false 3)
        isCreateValueRel = (introspect schemaW2 colsDbW2 "u").length ∧
     countP (normalizeOps schemaW2 colsDbW2 catEmpty (.one "u") false 3)
        isTrgInsertInstance = 1 ∧
     countP (normalizeOps schemaW2 colsDbW2 catEmpty (.one "u") false 3)
        isTrgDeleteInstance = 1 ∧
     countP (normalizeOps schemaW2 colsDbW2 catEmpty (.one "u") false 3)
        isTrgInsertValue = (introspect schemaW2 colsDbW2 "u").length ∧
     countP (normalizeOps schemaW2 colsDbW2 catEmpty (.one "u") false 3)
        isTrgUpdateValue = (introspect schemaW2 colsDbW2 "u").length ∧
     countP (normalizeOps schemaW2 colsDbW2 catEmpty (.one "u") false 3)
        isInsTableExist = 1 ∧
     countP (normalizeOps schemaW2 colsDbW2 catEmpty (.one "u") false 3)
        isInsTableName = 1 ∧
     countP (normalizeOps schemaW2 colsDbW2 catEmpty (.one "u") false 3)
        isInsColumnExist = (introspect schemaW2 colsDbW2 "u").length ∧
     countP (normalizeOps schemaW2 colsDbW2 catEmpty (.one "u") false 3)
        isInsColumnName = (introspect schemaW2 colsDbW2 "u").length) :=
  ⟨by decide, c2_normalize_counts schemaW2 colsDbW2 catEmpty false 3 "u" (by decide)⟩

/-! ## Transaction discipline of `normalize` (claim C5) -/

/-- Transaction-time parameter carried by a catalog history insert. -/
def timeOf : Op → Option Nat
  | .insTableExist _ t _ => some t
  | .insTableName _ t _ => some t
  | .insColumnExist _ t _ => some t
  | .insColumnName _ t _ => some t
  | _ => none

theorem colsOps_no_txn (tid now : Nat) (nm : String) :
    ∀ (cols : List ColInfo) (cid : Nat),
      countP (colsOps tid now nm cid cols) isBeginOp = 0 ∧
      countP (colsOps tid now nm cid cols) isCommitOp = 0 := by
  intro cols
  induction cols with
  | nil => intro cid; exact ⟨rfl, rfl⟩
  | cons colInfo rest ih =>
    intro cid
    obtain ⟨colNm, dtype⟩ := colInfo
    obtain ⟨ih1, ih2⟩ := ih (cid + 1)
    rw [colsOps, countP_append, countP_append, ih1, ih2]
    exact ⟨rfl, rfl⟩

theorem tablesOps_no_txn (schema : List (String × String))
    (colsDb : List (String × List ColInfo)) (now : Nat) :
    ∀ (names : List String) (tid cid : Nat),
      countP (tablesOps schema colsDb now tid cid names) isBeginOp = 0 ∧
      countP (tablesOps schema colsDb now tid cid names) isCommitOp = 0 := by
  intro names
  induction names with
  | nil => intro tid cid; exact ⟨rfl, rfl⟩
  | cons nm rest ih =>
    intro tid cid
    obtain ⟨ih1, ih2⟩ := ih (tid + 1) (cid + (introspect schema colsDb nm).length)
    obtain ⟨hc1, hc2⟩ := colsOps_no_txn tid now nm (introspect schema colsDb nm) cid
    constructor
    · rw [tablesOps, countP_append, tableOps, countP_append, hc1, ih1]
      rfl
    · rw [tablesOps, countP_append, tableOps, countP_append, hc2, ih2]
      rfl

theorem colsOps_times (tid now : Nat) (nm : String) :
    ∀ (cols : List ColInfo) (cid : Nat),
      ((colsOps tid now nm cid cols).filterMap timeOf).all
        (fun x => x == now) = true := by
  intro cols
  induction cols with
  | nil => intro cid; rfl
  | cons colInfo rest ih =>
    intro cid
    obtain ⟨colNm, dtype⟩ := colInfo
    rw [colsOps, List.filterMap_append, List.all_append, ih (cid + 1)]
    simp [timeOf, List.filterMap]

theorem tablesOps_times (schema : List (String × String))
    (colsDb : List (String × List ColInfo)) (now : Nat) :
    ∀ (names : List String) (tid cid : Nat),
      ((tablesOps schema colsDb now tid cid names).filterMap timeOf).all
        (fun x => x == now) = true := by
  intro names
  induction names with
  | nil => intro tid cid; rfl
  | cons nm rest ih =>
    intro tid cid
    rw [tablesOps, List.filterMap_append, List.all_append,
      ih (tid + 1) (cid + (introspect schema colsDb nm).length), tableOps,
      List.filterMap_append, List.all_append,
      colsOps_times tid now nm (introspect schema colsDb nm) cid]
    simp [timeOf, List.filterMap]

/-- Claim C5 (confirmed).  In every `normalize` call: a `BEGIN` is issued iff
the connection is not already inside a transaction at entry, a `COMMIT` is
issued iff this call issued the `BEGIN` (a caller-held transaction is
enlisted in, never nested), and every Table and Column existence/name catalog
history row inserted during the call carries the one transaction-time value
`now` recorded once for the entire call. -/
theorem c5_transaction_discipline (schema : List (String × String))
    (colsDb : List (String × List ColInfo)) (cat : Cat) (sel : Selector)
    (inTxn : Bool) (now : Nat) :
    countP (normalizeOps schema colsDb cat sel inTxn now) isBeginOp =
      (if inTxn then 0 else 1) ∧
    countP (normalizeOps schema colsDb cat sel inTxn now) isCommitOp =
      (if inTxn then 0 else 1) ∧
    ((normalizeOps schema colsDb cat sel inTxn now).filterMap timeOf).all
      (fun x => x == now) = true := by
  obtain ⟨ht1, ht2⟩ := tablesOps_no_txn schema colsDb now
    (resolveTables schema cat sel) (nextTableId cat) (nextColumnId cat)
  have htt := tablesOps_times schema colsDb now (resolveTables schema cat sel)
    (nextTableId cat) (nextColumnId cat)
  refine ⟨?_, ?_, ?_⟩
  · rw [normalizeOps, countP_append, countP_append, countP_append, ht1]
    cases inTxn <;> rfl
  · rw [normalizeOps, countP_append, countP_append, countP_append, ht2]
    cases inTxn <;> rfl
  · rw [normalizeOps, List.filterMap_append, List.all_append,
      List.filterMap_append, List.all_append, List.filterMap_append,
      List.all_append, htt]
    cases inTxn <;> rfl

end Sqlite6nf

namespace Sqlite6nf

/-! ## Idempotence of `normalize` (claim C3) -/

/-- Base-table name referenced by a statement: the Table name-history insert
and the four trigger creations name the tracked table; no other statement
does. -/
def baseTableOf : Op → Option String
  | .insTableName _ _ nm => some nm
  | .trgInsertInstance _ nm => some nm
  | .trgDeleteInstance _ nm => some nm
  | .trgInsertValue _ _ nm _ => some nm
  | .trgUpdateValue _ _ nm _ => some nm
  | _ => none

theorem colsOps_baseTable (tid now : Nat) (nm : String) :
    ∀ (cols : List ColInfo) (cid : Nat) (op : Op),
      op ∈ colsOps tid now nm cid cols →
      baseTableOf op = none ∨ baseTableOf op = some nm := by
  intro cols
  induction cols with
  | nil => intro cid op h; simp [colsOps] at h
  | cons colInfo rest ih =>
    intro cid op h
    obtain ⟨colNm, dtype⟩ := colInfo
    rw [colsOps] at h
    rcases List.mem_append.mp h with h1 | h2
    · simp only [List.mem_cons, List.not_mem_nil, or_false] at h1
      rcases h1 with rfl | rfl | rfl | rfl | rfl | rfl <;>
        first
          | exact Or.inl rfl
          | exact Or.inr rfl
    · exact ih (cid + 1) op h2

theorem tablesOps_baseTable (schema : List (String × String))
    (colsDb : List (String × List ColInfo)) (now : Nat) :
    ∀ (names : List String) (tid cid : Nat) (op : Op),
      op ∈ tablesOps schema colsDb now tid cid names →
      baseTableOf op = none ∨ ∃ nm ∈ names, baseTableOf op = some nm := by
  intro names
  induction names with
  | nil => intro tid cid op h; simp [tablesOps] at h
  | cons nm rest ih =>
    intro tid cid op h
    rw [tablesOps] at h
    rcases List.mem_append.mp h with h1 | h2
    · rw [tableOps] at h1
      rcases List.mem_append.mp h1 with h3 | h4
      · simp only [List.mem_cons, List.not_mem_nil, or_false] at h3
        rcases h3 with rfl | rfl | rfl | rfl | rfl | rfl | rfl <;>
          first
            | exact Or.inl rfl
            | exact Or.inr ⟨nm, List.mem_cons_self nm rest, rfl⟩
      · rcases colsOps_baseTable tid now nm (introspect schema colsDb nm)
            cid op h4 with h5 | h5
        · exact Or.inl h5
        · exact Or.inr ⟨nm, List.mem_cons_self nm rest, h5⟩
    · rcases ih (tid + 1) (cid + (introspect schema colsDb nm).length) op h2
          with h5 | ⟨nm2, hnm2, h6⟩
      · exact Or.inl h5
      · exact Or.inr ⟨nm2, List.mem_cons_of_mem nm hnm2, h6⟩

theorem normalizeOps_true (schema : List (String × String))
    (colsDb : List (String × List ColInfo)) (cat : Cat) (sel : Selector)
    (now : Nat) :
    normalizeOps schema colsDb cat sel true now =
      catalogCreates ++ tablesOps schema colsDb now (nextTableId cat)
        (nextColumnId cat) (resolveTables schema cat sel) := by
  simp [normalizeOps]

theorem normalizeOps_false (schema : List (String × String))
    (colsDb : List (String × List ColInfo)) (cat : Cat) (sel : Selector)
    (now : Nat) :
    normalizeOps schema colsDb cat sel false now =
      [Op.sqlBegin] ++ catalogCreates ++ tablesOps schema colsDb now
        (nextTableId cat) (nextColumnId cat) (resolveTables schema cat sel)
      ++ [Op.sqlCommit] := by
  simp [normalizeOps]

theorem mem_catalogCreates_baseTable (op : Op) (h : op ∈ catalogCreates) :
    baseTableOf op = none := by
  simp only [catalogCreates, List.mem_cons, List.not_mem_nil, or_false] at h
  rcases h with rfl | rfl | rfl | rfl | rfl | rfl <;> rfl

theorem normalizeOps_mem_baseTable (schema : List (String × String))
    (colsDb : List (String × List ColInfo)) (cat : Cat) (sel : Selector)
    (inTxn : Bool) (now : Nat) (op : Op)
    (hop : op ∈ normalizeOps schema colsDb cat sel inTxn now) :
    baseTableOf op = none ∨
    ∃ nm ∈ resolveTables schema cat sel, baseTableOf op = some nm := by
  cases inTxn with
  | true =>
    rw [normalizeOps_true] at hop
    rcases List.mem_append.mp hop with h1 | h2
    · exact Or.inl (mem_catalogCreates_baseTable op h1)
    · exact tablesOps_baseTable schema colsDb now _ _ _ op h2
  | false =>
    rw [normalizeOps_false] at hop
    rcases List.mem_append.mp hop with h1 | h2
    · rcases List.mem_append.mp h1 with h3 | h4
      · rcases List.mem_append.mp h3 with h5 | h6
        · simp only [List.mem_cons, List.not_mem_nil, or_false] at h5
          subst h5
          exact Or.inl rfl
        · exact Or.inl (mem_catalogCreates_baseTable op h6)
      · exact tablesOps_baseTable schema colsDb now _ _ _ op h4
    · simp only [List.mem_cons, List.not_mem_nil, or_false] at h2
      subst h2
      exact Or.inl rfl

/-- Claim C3 (amended, confirmed part).  When an already-tracked table `t`
(one with a row in the Table name-history relation) arrives via the `ALL`
selector, `normalize` is a no-op for `t`: the schema query excludes `t` from
the resolved table list, and no statement of the call references `t` as its
base table — no catalog rows, shadow tables or triggers are created for `t`.
(Explicitly naming `t` is different; see the counterexample.) -/
theorem c3_all_selector_noop (schema : List (String × String))
    (colsDb : List (String × List ColInfo)) (cat : Cat) (inTxn : Bool)
    (now : Nat) (t : String) (h : t ∈ trackedNames cat) :
    t ∉ resolveTables schema cat .all ∧
    ∀ op ∈ normalizeOps schema colsDb cat .all inTxn now,
      baseTableOf op ≠ some t := by
  have hres : t ∉ resolveTables schema cat .all := by
    intro hc
    simp only [resolveTables, schemaSelect, List.mem_map, List.mem_filter,
      Bool.and_eq_true, Bool.not_eq_true'] at hc
    obtain ⟨r, ⟨hrmem, ⟨hA, hB⟩, hC⟩, hr1⟩ := hc
    rw [hr1] at hC
    simp at hC
    exact hC h
  refine ⟨hres, ?_⟩
  intro op hop hbt
  rcases normalizeOps_mem_baseTable schema colsDb cat .all inTxn now op hop
      with h5 | ⟨nm, hnm, h6⟩
  · rw [h5] at hbt; exact Option.noConfusion hbt
  · rw [h6] at hbt
    injection hbt with hbt2
    rw [hbt2] at hnm
    exact hres hnm

end Sqlite6nf

namespace Sqlite6nf

/-- State in which table `t` (one column `a`) is already tracked: it has rows
in the catalog relations, its shadow relations and triggers exist. -/
def catTracked : Cat :=
  ⟨[1], [(1, 0, 1)], [(1, 0, "t")], [(1, 1)], [(1, 0, 1)], [(1, 0, "a")],
   [.fixed .table, .fixed .tableExist, .fixed .tableName, .fixed .column,
    .fixed .columnExist, .fixed .columnName, .inst 1, .instExist 1, .value 1 1],
   [.insInst 1, .delInst 1, .insVal 1 1, .updVal 1 1]⟩

/-- Live schema containing only table `t`. -/
def schemaT : List (String × String) := [("t", "table")]

/-- Column introspection for `t`. -/
def colsDbT : List (String × List ColInfo) := [("t", [("a", "INTEGER")])]

/-- Witness for claim C3 (amended): `t` is tracked, the ALL selector excludes
it, and no statement of the call references it. -/
theorem c3_all_selector_noop_witness :
    "t" ∈ trackedNames catTracked ∧
    ("t" ∉ resolveTables schemaT catTracked .all ∧
     ∀ op ∈ normalizeOps schemaT colsDbT catTracked .all false 7,
       baseTableOf op ≠ some "t") :=
  ⟨by decide,
   c3_all_selector_noop schemaT colsDbT catTracked false 7 "t" (by decide)⟩

/-- Claim C3 (refuted as stated for explicit selectors): with table `t`
already tracked (`catTracked`), calling `normalize` again with `t` named
explicitly is not a no-op: the call allocates a fresh table id 2 and inserts
new Table and Column catalog history rows for `t`, and creates new shadow
relations and triggers for the fresh id — the eligibility filter is only
applied to the ALL selector, never to explicit names. -/
theorem c3_counterexample :
    "t" ∈ trackedNames catTracked ∧
    Op.insTableName 2 7 "t" ∈
      normalizeOps schemaT colsDbT catTracked (.one "t") false 7 ∧
    Op.insTableExist 2 7 1 ∈
      normalizeOps schemaT colsDbT catTracked (.one "t") false 7 ∧
    Op.insColumnName 2 7 "a" ∈
      normalizeOps schemaT colsDbT catTracked (.one "t") false 7 ∧
    Op.createInstanceRel 2 ∈
      normalizeOps schemaT colsDbT catTracked (.one "t") false 7 ∧
    Op.trgInsertInstance 2 "t" ∈
      normalizeOps schemaT colsDbT catTracked (.one "t") false 7 := by
  refine ⟨?_, ?_, ?_, ?_, ?_, ?_⟩ <;> decide

/-! ## Failure atomicity of `normalize` (claim C4) -/

theorem policyOf_failing (cat : Cat) (op : Op) (e : SqlErr)
    (hx : execOp cat op = .error e) : policyOf op = .rollback := by
  cases op <;> first | rfl | simp [execOp] at hx

theorem runOps_error_snap (snap : Cat) :
    ∀ (ops : List Op) (cat final : Cat) (e : SqlErr),
      runOps snap cat ops = (final, some e) → final = snap := by
  intro ops
  induction ops with
  | nil => intro cat final e h; simp [runOps] at h
  | cons op rest ih =>
    intro cat final e h
    rw [runOps] at h
    cases hx : execOp cat op with
    | ok c2 =>
      rw [hx] at h
      exact ih c2 final e h
    | error e2 =>
      rw [hx, policyOf_failing cat op e2 hx] at h
      have h2 : (snap, some e2) = (final, some e) := h
      injection h2 with h3 h4
      exact h3.symm

/-- Claim C4 (confirmed).  If any catalog insert performed during a
`normalize` call violates a constraint, the entire enclosing transaction is
unwound — the final state is the transaction-start state, which for a
call-opened transaction is the entry state, so no partial normalization state
of the call (not even fully-processed earlier tables) is left committed; the
error value is surfaced to the caller unmodified, `normalize` installing no
handler and performing no retry. -/
theorem c4_rollback_unwinds (schema : List (String × String))
    (colsDb : List (String × List ColInfo)) (cat txnStart : Cat)
    (inTxn : Bool) (sel : Selector) (now : Nat) (final : Cat) (e : SqlErr)
    (h : runNormalize schema colsDb cat txnStart inTxn sel now =
      (final, some e)) :
    final = (if inTxn then txnStart else cat) := by
  simp only [runNormalize] at h
  exact runOps_error_snap _ _ _ _ _ h

/-- Entry state with a planted conflicting row `(1, 9, 1)` in the Table
existence-history relation (SQLite does not enforce the foreign key by
default, so such a state is reachable); normalizing table `t` at time 9
allocates id 1 and its existence insert collides. -/
def catConf : Cat := ⟨[], [(1, 9, 1)], [], [], [], [], [], []⟩

/-- Witness for claim C4: on `catConf` the call fails at the Table
existence-history insert and the final state is exactly the entry state. -/
theorem c4_rollback_unwinds_witness :
    runNormalize schemaT colsDbT catConf catConf false (.one "t") 9 =
      (catConf, some (.uniq .tableExist)) ∧
    catConf = (if false then catConf else catConf) :=
  ⟨by decide,
   c4_rollback_unwinds schemaT colsDbT catConf catConf false (.one "t") 9
     catConf (.uniq .tableExist) (by decide)⟩

end Sqlite6nf
